import Mathlib

/-!
Verification of the srsRAN_Project_ISAC sandbox sources against their
specification.  Two components are embedded shallowly:

* `src/include/saru/zmq_pub.h` — a non-blocking ZeroMQ publisher
  (`zmq_pub_init`, `zmq_pub_send_json`, `zmq_pub_close`), modelled as
  functions over an explicit global-handle state `ZmqGlobals` and an
  environment `ZmqEnv`/`SendEnv` giving the results of the external
  libzmq calls.  Each function returns the list of external calls it
  performs (`ZAction`), in order.

* `src/sandbox/test-dpdk-init.c` — a DPDK port bring-up program,
  modelled as a function `main` over an environment `DpdkEnv` giving the
  results of the external DPDK calls; it returns the ordered list of
  external calls and diagnostics (`Action`) together with an `Outcome`
  (normal exit or `rte_panic`).

All numeric constants (ZMQ option ids, DPDK FEC capability bits, link
speed flags) use the values of the real headers.
-/

/-! ## ZeroMQ publisher (src/include/saru/zmq_pub.h) -/

/-- ZMQ_PUB socket type (zmq.h). -/
def ZMQ_PUB : Nat := 1
/-- ZMQ_SNDHWM socket option id (zmq.h). -/
def ZMQ_SNDHWM : Nat := 23
/-- ZMQ_LINGER socket option id (zmq.h). -/
def ZMQ_LINGER : Nat := 17
/-- ZMQ_SNDTIMEO socket option id (zmq.h). -/
def ZMQ_SNDTIMEO : Nat := 28
/-- ZMQ_DONTWAIT send flag (zmq.h). -/
def ZMQ_DONTWAIT : Nat := 1
/-- ZMQ_SNDMORE send flag (zmq.h). -/
def ZMQ_SNDMORE : Nat := 2

/-- The two `static void*` globals of zmq_pub.h.  A handle is modelled as
`Option Nat`: `none` is the C null pointer. -/
structure ZmqGlobals where
  g_zmq_ctx : Option Nat
  g_zmq_pub : Option Nat
deriving DecidableEq

/-- Results of the external libzmq calls made by `zmq_pub_init`:
the context handle returned by `zmq_ctx_new` (`none` = NULL), the socket
handle returned by `zmq_socket`, and the return value of `zmq_bind`. -/
structure ZmqEnv where
  ctxNewResult : Option Nat
  socketResult : Option Nat
  bindResult : Int
deriving DecidableEq

/-- Results of the two `zmq_send` calls made by `zmq_pub_send_json`. -/
structure SendEnv where
  topicResult : Int
  payloadResult : Int
deriving DecidableEq

/-- External calls performed by the publisher.  `connectSock` models
`zmq_connect`, which the source never calls (it is here so that
"binds, not connects" is statable). -/
inductive ZAction where
  | ctxNew : ZAction
  | socketNew (ctx : Nat) (typ : Nat) : ZAction
  | setsockopt (sock : Nat) (opt : Nat) (val : Int) : ZAction
  | bindSock (sock : Nat) (endpoint : String) : ZAction
  | connectSock (sock : Nat) (endpoint : String) : ZAction
  | send (sock : Nat) (data : String) (len : Nat) (flags : Nat) : ZAction
  | closeSock (sock : Nat) : ZAction
  | ctxTerm (ctx : Nat) : ZAction
  | abortProc (who : String) : ZAction
deriving DecidableEq

/-- Model of `zmq_pub_init(endpoint)`: create context, create one PUB socket, set
SNDHWM=2000, LINGER=0, SNDTIMEO=0, then bind; abort on context/socket/bind
failure.  Returns the updated globals, the ordered external calls, and
whether `std::abort` was reached. -/
def zmq_pub_init (env : ZmqEnv) (endpoint : String) (g : ZmqGlobals) :
    ZmqGlobals × List ZAction × Bool :=
  match env.ctxNewResult with
  | none => ({ g with g_zmq_ctx := none },
             [ZAction.ctxNew, ZAction.abortProc "zmq_ctx_new"], true)
  | some c =>
    match env.socketResult with
    | none => ({ g_zmq_ctx := some c, g_zmq_pub := none },
               [ZAction.ctxNew, ZAction.socketNew c ZMQ_PUB,
                ZAction.abortProc "zmq_socket"], true)
    | some p =>
      let acts := [ZAction.ctxNew, ZAction.socketNew c ZMQ_PUB,
                   ZAction.setsockopt p ZMQ_SNDHWM 2000,
                   ZAction.setsockopt p ZMQ_LINGER 0,
                   ZAction.setsockopt p ZMQ_SNDTIMEO 0,
                   ZAction.bindSock p endpoint]
      if env.bindResult ≠ 0 then
        ({ g_zmq_ctx := some c, g_zmq_pub := some p },
         acts ++ [ZAction.abortProc "zmq_bind"], true)
      else
        ({ g_zmq_ctx := some c, g_zmq_pub := some p }, acts, false)

/-- Model of `zmq_pub_send_json(topic, json, len)`: no-op if the socket handle is
null; otherwise send the topic frame with `ZMQ_SNDMORE | ZMQ_DONTWAIT`,
and only if that did not fail, send the payload frame with
`ZMQ_DONTWAIT` (its result is discarded).  Returns the ordered external
calls; the C function is `void`. -/
def zmq_pub_send_json (env : SendEnv) (g : ZmqGlobals)
    (topic json : String) (len : Nat) : List ZAction :=
  match g.g_zmq_pub with
  | none => []
  | some p =>
    if env.topicResult < 0 then
      [ZAction.send p topic topic.length (ZMQ_SNDMORE ||| ZMQ_DONTWAIT)]
    else
      [ZAction.send p topic topic.length (ZMQ_SNDMORE ||| ZMQ_DONTWAIT),
       ZAction.send p json len ZMQ_DONTWAIT]

/-- Model of `zmq_pub_close()`: close the socket if non-null and null it, then
terminate the context if non-null and null it. -/
def zmq_pub_close (g : ZmqGlobals) : ZmqGlobals × List ZAction :=
  let s1 : ZmqGlobals × List ZAction :=
    match g.g_zmq_pub with
    | some p => ({ g with g_zmq_pub := none }, [ZAction.closeSock p])
    | none => (g, [])
  match s1.1.g_zmq_ctx with
  | some c => ({ s1.1 with g_zmq_ctx := none }, s1.2 ++ [ZAction.ctxTerm c])
  | none => (s1.1, s1.2)

/-- Holds (`true`) on every send action that carries the `ZMQ_DONTWAIT` bit, and
on every non-send action. -/
def sendIsNonBlocking : ZAction → Bool
  | ZAction.send _ _ _ flags => flags &&& ZMQ_DONTWAIT ≠ 0
  | _ => true

/-- Holds (`true`) on `abortProc` actions. -/
def isAbortA : ZAction → Bool
  | ZAction.abortProc _ => true
  | _ => false

/-- Holds (`true`) on `connectSock` actions. -/
def isConnectA : ZAction → Bool
  | ZAction.connectSock _ _ => true
  | _ => false

/-- A libzmq environment where context creation, socket creation and
bind all succeed. -/
def zenvOK : ZmqEnv :=
  { ctxNewResult := some 1, socketResult := some 2, bindResult := 0 }

/-- Send results of a publisher whose outbound buffer is full: both
`zmq_send` calls fail with `-1` (errno EAGAIN). -/
def sendEnvFull : SendEnv := { topicResult := -1, payloadResult := -1 }

/-- Send results of an unloaded publisher: both sends succeed. -/
def sendEnvOk : SendEnv := { topicResult := 5, payloadResult := 10 }

/-- Globals after a successful `zmq_pub_init`: context handle 1, socket
handle 2. -/
def gReady : ZmqGlobals := { g_zmq_ctx := some 1, g_zmq_pub := some 2 }

/-! ## DPDK bring-up (src/sandbox/test-dpdk-init.c) -/

namespace Dpdk

/-- RTE_ETH_LINK_SPEED_FIXED (rte_ethdev.h): disable autonegotiation. -/
def RTE_ETH_LINK_SPEED_FIXED : Nat := 1
/-- RTE_ETH_LINK_SPEED_10G (rte_ethdev.h). -/
def RTE_ETH_LINK_SPEED_10G : Nat := 256
/-- RTE_ETH_FEC_NOFEC capability bit (rte_ethdev.h). -/
def RTE_ETH_FEC_NOFEC : Nat := 1
/-- RTE_ETH_FEC_AUTO capability bit (rte_ethdev.h). -/
def RTE_ETH_FEC_AUTO : Nat := 2
/-- RTE_ETH_FEC_BASER capability bit (rte_ethdev.h). -/
def RTE_ETH_FEC_BASER : Nat := 4
/-- RTE_ETH_FEC_RS capability bit (rte_ethdev.h). -/
def RTE_ETH_FEC_RS : Nat := 8
/-- RTE_ETH_LINK_FULL_DUPLEX (rte_ethdev.h). -/
def RTE_ETH_LINK_FULL_DUPLEX : Nat := 1

/-- Contents of `struct rte_eth_link` as used by the program:
`link_status` truthiness, `link_speed` in Mbps, `link_duplex`. -/
structure rte_eth_link where
  link_status : Bool
  link_speed : Nat
  link_duplex : Nat
deriving DecidableEq

/-- Results of the external DPDK calls made by `main`, in call order.
`poolCreate` is the handle returned by `rte_pktmbuf_pool_create`
(`none` = NULL).  `fecGetResult` is the return value of
`rte_eth_fec_get` paired with the capability mask it stores.
`linkGetResult` is the return value of `rte_eth_link_get_nowait` and
`link` the struct contents after that call (the program ignores the
return value and uses the struct unconditionally). -/
structure DpdkEnv where
  ealInitResult : Int
  availPorts : Nat
  validPort : Bool
  poolCreate : Option Nat
  configureResult : Int
  rxSetupResult : Int
  txSetupResult : Int
  setMtuResult : Int
  fecSetResult : Int
  fecGetResult : Int × Nat
  startResult : Int
  linkGetResult : Int
  link : rte_eth_link
deriving DecidableEq

/-- Queue direction of a queue-setup call. -/
inductive QDir where
  | rx : QDir
  | tx : QDir
deriving DecidableEq

/-- External calls and console diagnostics of the bring-up program, in
program order.  `queueSetup` carries the mempool handle passed to the
call: `rte_eth_rx_queue_setup` takes a mempool argument (`some mp`),
`rte_eth_tx_queue_setup` has no mempool parameter (`none`).
`poolFree` models `rte_mempool_free`, which the source never calls;
`runLoop` marks the `while (keep_running) sleep(1)` loop; `sleep` a
single `sleep` call inside it; `reportLink` the final link printf with
its status/duplex strings as printed. -/
inductive Action where
  | ealInit : Action
  | countAvail : Action
  | devStop (port : Nat) : Action
  | devInfoGet (port : Nat) : Action
  | poolCreate (name : String) (n cache priv dataRoom : Nat) : Action
  | poolFree (mp : Nat) : Action
  | devConfigure (port nbRxq nbTxq mtu linkSpeeds : Nat) : Action
  | queueSetup (dir : QDir) (port q desc : Nat) (pool : Option Nat) : Action
  | setMtu (port mtu : Nat) : Action
  | fecSet (port mode : Nat) : Action
  | fecGet (port : Nat) : Action
  | devStart (port : Nat) : Action
  | linkGetNowait (port : Nat) : Action
  | reportLink (port : Nat) (status : String) (speed : Nat) (duplex : String) : Action
  | sigInstall : Action
  | runLoop : Action
  | sleep (secs : Nat) : Action
  | devClose (port : Nat) : Action
  | ealCleanup : Action
  | warn (msg : String) : Action
  | report (msg : String) : Action
  | panic (msg : String) : Action
deriving DecidableEq

/-- How the process ends: `rte_panic` (process abort) or `return code`. -/
inductive Outcome where
  | panicked (msg : String) : Outcome
  | exited (code : Int) : Outcome
deriving DecidableEq

/-- The FEC-mode list printed by `print_fec` on success, in the order of
the source's checks: AUTO, RS, BASE-R, NOFEC. -/
def fecModesStr (fec : Nat) : String :=
  (if fec &&& RTE_ETH_FEC_AUTO ≠ 0 then "AUTO " else "")
    ++ (if fec &&& RTE_ETH_FEC_RS ≠ 0 then "RS " else "")
    ++ (if fec &&& RTE_ETH_FEC_BASER ≠ 0 then "BASE-R " else "")
    ++ (if fec &&& RTE_ETH_FEC_NOFEC ≠ 0 then "NOFEC " else "")

/-- The line `print_fec` prints: the current FEC mode list when
`rte_eth_fec_get` returned 0, otherwise the not-supported diagnostic. -/
def print_fec_msg (env : DpdkEnv) (tag : String) : String :=
  if env.fecGetResult.1 = 0 then
    "[" ++ tag ++ "] FEC mode now: " ++ fecModesStr env.fecGetResult.2
  else
    "[" ++ tag ++ "] FEC get not supported (ret=" ++ toString env.fecGetResult.1 ++ ")"

/-- Model of `print_fec(port_id, tag)`: one `rte_eth_fec_get` call followed by one
printed line (mode list on success, not-supported diagnostic otherwise). -/
def print_fec (env : DpdkEnv) (port_id : Nat) (tag : String) : List Action :=
  [Action.fecGet port_id, Action.report (print_fec_msg env tag)]

/-- Panic message of the `rte_eth_dev_configure` failure branch. -/
def cfgFailMsg (env : DpdkEnv) : String :=
  "dev configure failed: " ++ toString env.configureResult
/-- Panic message of the `rte_eth_rx_queue_setup` failure branch. -/
def rxFailMsg (env : DpdkEnv) : String :=
  "rx queue setup failed: " ++ toString env.rxSetupResult
/-- Panic message of the `rte_eth_tx_queue_setup` failure branch. -/
def txFailMsg (env : DpdkEnv) : String :=
  "tx queue setup failed: " ++ toString env.txSetupResult
/-- Panic message of the `rte_eth_dev_start` failure branch. -/
def startFailMsg (env : DpdkEnv) : String :=
  "port start failed: " ++ toString env.startResult
/-- Warning printed when `rte_eth_dev_set_mtu` fails. -/
def mtuWarnMsg (env : DpdkEnv) : String :=
  "WARN: set MTU(9200) failed: " ++ toString env.setMtuResult
/-- Warning printed when `rte_eth_fec_set` fails. -/
def fecWarnMsg (env : DpdkEnv) : String :=
  "WARN: FEC set NOFEC failed: " ++ toString env.fecSetResult
    ++ " (driver/firmware may not allow)"

/-- The MTU block: the explicit `rte_eth_dev_set_mtu(port, 9200)` call,
plus its warning when the call failed (execution continues either way). -/
def mtuBlock (env : DpdkEnv) : List Action :=
  [Action.setMtu 0 9200]
    ++ (if env.setMtuResult < 0 then [Action.warn (mtuWarnMsg env)] else [])

/-- The FEC block: `rte_eth_fec_set(port, RTE_ETH_FEC_NOFEC)`, its
warning when the call failed, then `print_fec(port, "after set")`
(execution continues either way). -/
def fecBlock (env : DpdkEnv) : List Action :=
  [Action.fecSet 0 RTE_ETH_FEC_NOFEC]
    ++ (if env.fecSetResult < 0 then [Action.warn (fecWarnMsg env)] else [])
    ++ print_fec env 0 "after set"

/-- The link block after `rte_eth_dev_start` succeeds:
`rte_eth_link_get_nowait` (return value ignored) followed by the printf
of the struct contents — status printed as "UP"/"DOWN", duplex as
"full"/"half". -/
def linkBlock (env : DpdkEnv) : List Action :=
  [Action.linkGetNowait 0,
   Action.reportLink 0 (if env.link.link_status then "UP" else "DOWN")
     env.link.link_speed
     (if env.link.link_duplex = RTE_ETH_LINK_FULL_DUPLEX then "full" else "half")]

/-- Everything after (and including the check of) `rte_eth_dev_start`'s
return: panic on failure; otherwise the link block, the SIGINT handler
installation, the "Running..." banner, the run loop, and the shutdown
sequence `rte_eth_dev_stop` / `rte_eth_dev_close` / `rte_eal_cleanup`. -/
def tailTrace (env : DpdkEnv) : List Action :=
  if env.startResult < 0 then [Action.panic (startFailMsg env)]
  else
    linkBlock env
      ++ [Action.sigInstall, Action.report "Running... (Ctrl-C to stop)",
          Action.runLoop, Action.devStop 0, Action.devClose 0, Action.ealCleanup]

/-- Calls from `rte_eal_init` up to tx queue setup on the path where
pool creation, device configure and rx queue setup all succeeded with
pool handle `mp`: EAL init, port count, the precautionary
`rte_eth_dev_stop` guarded by `rte_eth_dev_is_valid_port`, device info,
pool creation (8192 mbufs, cache 256, priv 0, 16384 data room), device
configure (1 rx / 1 tx queue, MTU 9200, fixed 10G link speeds mask 257),
rx queue setup bound to `mp`, tx queue setup without a pool. -/
def setupTrace (env : DpdkEnv) (mp : Nat) : List Action :=
  [Action.ealInit, Action.countAvail]
    ++ (if env.validPort then [Action.devStop 0] else [])
    ++ [Action.devInfoGet 0,
        Action.poolCreate "MBUF_POOL" 8192 256 0 16384,
        Action.devConfigure 0 1 1 9200
          (RTE_ETH_LINK_SPEED_10G ||| RTE_ETH_LINK_SPEED_FIXED),
        Action.queueSetup QDir.rx 0 0 1024 (some mp),
        Action.queueSetup QDir.tx 0 0 1024 none]

/-- Model of `main` of test-dpdk-init.c, as a function of the call results: the
ordered external calls and diagnostics, and the process outcome.
Each `rte_panic` branch aborts with the source's message. -/
def main (env : DpdkEnv) : List Action × Outcome :=
  if env.ealInitResult < 0 then
    ([Action.ealInit, Action.panic "EAL init failed"],
     Outcome.panicked "EAL init failed")
  else if env.availPorts = 0 then
    ([Action.ealInit, Action.countAvail, Action.panic "No available DPDK ports"],
     Outcome.panicked "No available DPDK ports")
  else
    let pre := [Action.ealInit, Action.countAvail]
      ++ (if env.validPort then [Action.devStop 0] else [])
      ++ [Action.devInfoGet 0, Action.poolCreate "MBUF_POOL" 8192 256 0 16384]
    match env.poolCreate with
    | none =>
      (pre ++ [Action.panic "mbuf pool create failed"],
       Outcome.panicked "mbuf pool create failed")
    | some mp =>
      let pre := pre ++ [Action.devConfigure 0 1 1 9200
        (RTE_ETH_LINK_SPEED_10G ||| RTE_ETH_LINK_SPEED_FIXED)]
      if env.configureResult < 0 then
        (pre ++ [Action.panic (cfgFailMsg env)], Outcome.panicked (cfgFailMsg env))
      else
        let pre := pre ++ [Action.queueSetup QDir.rx 0 0 1024 (some mp)]
        if env.rxSetupResult < 0 then
          (pre ++ [Action.panic (rxFailMsg env)], Outcome.panicked (rxFailMsg env))
        else
          let pre := pre ++ [Action.queueSetup QDir.tx 0 0 1024 none]
          if env.txSetupResult < 0 then
            (pre ++ [Action.panic (txFailMsg env)], Outcome.panicked (txFailMsg env))
          else
            (pre ++ mtuBlock env ++ fecBlock env ++ [Action.devStart 0]
               ++ tailTrace env,
             if env.startResult < 0 then Outcome.panicked (startFailMsg env)
             else Outcome.exited 0)

/-- The `static volatile int keep_running` global of the program. -/
structure GlobalState where
  keep_running : Int
deriving DecidableEq

/-- Model of `handle_sigint(sig)`: ignores `sig`, sets `keep_running = 0`, and
performs no external calls (second component: the actions the handler
executes). -/
def handle_sigint (sig : Int) (s : GlobalState) : GlobalState × List Action :=
  ({ s with keep_running := 0 }, [])

/-- The `while (keep_running) sleep(1)` loop, with an explicit iteration
bound `n` (the real loop runs until the flag is cleared): each iteration
with a non-zero flag performs one `sleep(1)` and continues; a zero flag
exits at once without performing anything. -/
def runLoopModel : Nat → GlobalState → GlobalState × List Action
  | 0, s => (s, [])
  | Nat.succ n, s =>
    if s.keep_running ≠ 0 then
      ((runLoopModel n s).1, Action.sleep 1 :: (runLoopModel n s).2)
    else (s, [])

/-- Holds (`true`) on `fecSet` actions. -/
def isFecSetA : Action → Bool
  | Action.fecSet _ _ => true
  | _ => false

/-- Holds (`true`) on `devStart` actions. -/
def isDevStartA : Action → Bool
  | Action.devStart _ => true
  | _ => false

/-- Holds (`true`) on `queueSetup` actions of either direction. -/
def isQueueSetupA : Action → Bool
  | Action.queueSetup _ _ _ _ _ => true
  | _ => false

/-- Holds (`true`) on `poolFree` actions. -/
def isPoolFreeA : Action → Bool
  | Action.poolFree _ => true
  | _ => false

/-- Holds (`true`) on `devClose` actions. -/
def isDevCloseA : Action → Bool
  | Action.devClose _ => true
  | _ => false

/-- Holds (`true`) on `ealCleanup`. -/
def isEalCleanupA : Action → Bool
  | Action.ealCleanup => true
  | _ => false

/-- Holds (`true`) unless the action is a receive-queue setup bound to a pool
other than `mp`: every rx queue-setup call passes the pool `mp`. -/
def rxBoundTo (mp : Nat) : Action → Bool
  | Action.queueSetup QDir.rx _ _ _ p => p == some mp
  | _ => true

/-- Holds (`true`) unless the action is a transmit-queue setup that passes a
pool: no tx queue-setup call binds a pool. -/
def txNoPool : Action → Bool
  | Action.queueSetup QDir.tx _ _ _ p => p == none
  | _ => true

/-- Holds (`true`) on `reportLink` actions whose printed status is "unknown". -/
def reportsUnknown : Action → Bool
  | Action.reportLink _ st _ _ => st == "unknown"
  | _ => false

/-- Holds (`true`) on every action that is neither the run loop, the EAL
cleanup, a device close, nor a pool free. -/
def notShutdownA (a : Action) : Bool :=
  (!(a == Action.runLoop)) && (!(a == Action.ealCleanup))
    && (!isDevCloseA a) && (!isPoolFreeA a)

/-- Holds (`true`) on every action that is neither a FEC set nor a port start. -/
def notFecOrStartA (a : Action) : Bool :=
  (!isFecSetA a) && (!isDevStartA a)

/-- Holds (`true`) on every `reportLink` action whose printed status is "UP" or
"DOWN", and on every other action. -/
def linkStatusUpDown : Action → Bool
  | Action.reportLink _ st _ _ => st == "UP" || st == "DOWN"
  | _ => true

/-- First fatal failure `main` hits, with the exact `rte_panic` message,
mirroring the order of the program's checks. -/
def firstFatal (env : DpdkEnv) : Option String :=
  if env.ealInitResult < 0 then some "EAL init failed"
  else if env.availPorts = 0 then some "No available DPDK ports"
  else if env.poolCreate = none then some "mbuf pool create failed"
  else if env.configureResult < 0 then some (cfgFailMsg env)
  else if env.rxSetupResult < 0 then some (rxFailMsg env)
  else if env.txSetupResult < 0 then some (txFailMsg env)
  else if env.startResult < 0 then some (startFailMsg env)
  else none

/-- A device environment where every DPDK call succeeds: one port, pool
handle 7, FEC read back as NOFEC, link up at 10000 Mbps full duplex. -/
def envOK : DpdkEnv :=
  { ealInitResult := 0, availPorts := 1, validPort := true,
    poolCreate := some 7, configureResult := 0, rxSetupResult := 0,
    txSetupResult := 0, setMtuResult := 0, fecSetResult := 0,
    fecGetResult := (0, RTE_ETH_FEC_NOFEC), startResult := 0,
    linkGetResult := 0,
    link := { link_status := true, link_speed := 10000,
              link_duplex := RTE_ETH_LINK_FULL_DUPLEX } }

/-- As `envOK` but rx queue setup fails with `-5` (after the pool was
successfully created). -/
def envRxFail : DpdkEnv := { envOK with rxSetupResult := -5 }

/-- As `envOK` but `rte_pktmbuf_pool_create` returns NULL. -/
def envPoolFail : DpdkEnv := { envOK with poolCreate := none }

/-- As `envOK` but both tolerated steps fail: `rte_eth_dev_set_mtu`
returns `-1` and `rte_eth_fec_set` returns `-95` (`-EOPNOTSUPP`). -/
def envTolerated : DpdkEnv :=
  { envOK with setMtuResult := -1, fecSetResult := -95 }

/-- As `envOK` but the link cannot be read:
`rte_eth_link_get_nowait` returns `-1` and the (uninitialized) struct
holds status down, speed 0, duplex 0. -/
def envLinkFail : DpdkEnv :=
  { envOK with linkGetResult := -1,
               link := { link_status := false, link_speed := 0,
                         link_duplex := 0 } }

end Dpdk

/-- An element cannot be a member of a list all of whose elements differ
from it. -/
theorem not_mem_of_all_ne {α : Type} [BEq α] [LawfulBEq α] (a : α) (l : List α)
    (h : (l.all fun b => !(b == a)) = true) : a ∉ l := by
  intro hmem
  have h2 := List.all_eq_true.mp h a hmem
  simp at h2

namespace Dpdk

/-- On the path where EAL init, port discovery, pool creation, device
configuration and both queue setups succeed, `main` is the setup trace
followed by the MTU block, the FEC block, the port start and the tail. -/
theorem main_ok_decomp (env : DpdkEnv) (mp : Nat)
    (h1 : ¬ env.ealInitResult < 0) (h2 : ¬ env.availPorts = 0)
    (h3 : env.poolCreate = some mp) (h4 : ¬ env.configureResult < 0)
    (h5 : ¬ env.rxSetupResult < 0) (h6 : ¬ env.txSetupResult < 0) :
    main env =
      (setupTrace env mp ++ mtuBlock env ++ fecBlock env ++ [Action.devStart 0]
         ++ tailTrace env,
       if env.startResult < 0 then Outcome.panicked (startFailMsg env)
       else Outcome.exited 0) := by
  simp [main, setupTrace, h1, h2, h3, h4, h5, h6]

/-- Elementwise sufficient condition for a predicate to hold on the whole
setup trace. -/
theorem setupTrace_all (env : DpdkEnv) (mp : Nat) (p : Action → Bool)
    (g1 : p Action.ealInit = true) (g2 : p Action.countAvail = true)
    (g3 : p (Action.devStop 0) = true) (g4 : p (Action.devInfoGet 0) = true)
    (g5 : p (Action.poolCreate "MBUF_POOL" 8192 256 0 16384) = true)
    (g6 : p (Action.devConfigure 0 1 1 9200
      (RTE_ETH_LINK_SPEED_10G ||| RTE_ETH_LINK_SPEED_FIXED)) = true)
    (g7 : p (Action.queueSetup QDir.rx 0 0 1024 (some mp)) = true)
    (g8 : p (Action.queueSetup QDir.tx 0 0 1024 none) = true) :
    (setupTrace env mp).all p = true := by
  unfold setupTrace
  split <;> simp [g1, g2, g3, g4, g5, g6, g7, g8]

/-- Elementwise sufficient condition for a predicate to hold on the MTU
block. -/
theorem mtuBlock_all (env : DpdkEnv) (p : Action → Bool)
    (g1 : p (Action.setMtu 0 9200) = true)
    (g2 : ∀ s, p (Action.warn s) = true) :
    (mtuBlock env).all p = true := by
  unfold mtuBlock
  split <;> simp [g1, g2]

/-- Elementwise sufficient condition for a predicate to hold on the FEC
block. -/
theorem fecBlock_all (env : DpdkEnv) (p : Action → Bool)
    (g1 : p (Action.fecSet 0 RTE_ETH_FEC_NOFEC) = true)
    (g2 : ∀ s, p (Action.warn s) = true)
    (g3 : p (Action.fecGet 0) = true)
    (g4 : ∀ s, p (Action.report s) = true) :
    (fecBlock env).all p = true := by
  unfold fecBlock print_fec
  split <;> simp [g1, g2, g3, g4]

/-- Elementwise sufficient condition for a predicate to hold on the tail
of the trace (from the port-start result check on). -/
theorem tailTrace_all (env : DpdkEnv) (p : Action → Bool)
    (g1 : ∀ s, p (Action.panic s) = true)
    (g2 : p (Action.linkGetNowait 0) = true)
    (g3 : ∀ st sp d, p (Action.reportLink 0 st sp d) = true)
    (g4 : p Action.sigInstall = true)
    (g5 : ∀ s, p (Action.report s) = true)
    (g6 : p Action.runLoop = true)
    (g7 : p (Action.devStop 0) = true)
    (g8 : p (Action.devClose 0) = true)
    (g9 : p Action.ealCleanup = true) :
    (tailTrace env).all p = true := by
  unfold tailTrace linkBlock
  split <;> simp [g1, g2, g3, g4, g5, g6, g7, g8, g9]

end Dpdk

/-! ## Theorems for the Event Broadcaster claims -/

/-- After `zmq_pub_close`, both global handles are null, whatever they
were before. -/
theorem zmq_pub_close_clears (g : ZmqGlobals) :
    (zmq_pub_close g).1 = { g_zmq_ctx := none, g_zmq_pub := none } := by
  rcases g with ⟨c, p⟩
  cases c <;> cases p <;> simp [zmq_pub_close]

/-- Claim C5:: for every publish call, every send action performed carries
the non-blocking flag `ZMQ_DONTWAIT`; no call path aborts (send failures
are silently dropped, the function is `void`); and when the socket is
live but sending the topic frame fails, the call performs exactly that
one topic send — the payload frame is never sent. -/
theorem C5_publish_nonblocking_atomic (env : SendEnv) (g : ZmqGlobals)
    (topic json : String) (len : Nat) :
    ((zmq_pub_send_json env g topic json len).all sendIsNonBlocking = true) ∧
    ((zmq_pub_send_json env g topic json len).all (fun a => !isAbortA a) = true) ∧
    (∀ p, g.g_zmq_pub = some p → env.topicResult < 0 →
      zmq_pub_send_json env g topic json len =
        [ZAction.send p topic topic.length (ZMQ_SNDMORE ||| ZMQ_DONTWAIT)]) := by
  rcases g with ⟨c, sp⟩
  cases sp with
  | none =>
    refine ⟨rfl, rfl, ?_⟩
    intro p hp
    exact absurd hp (by simp)
  | some q =>
    refine ⟨?_, ?_, ?_⟩
    · simp only [zmq_pub_send_json]
      split <;> simp [sendIsNonBlocking, ZMQ_SNDMORE, ZMQ_DONTWAIT]
    · simp only [zmq_pub_send_json]
      split <;> simp [isAbortA]
    · intro p hp hlt
      have hq : q = p := by simpa using hp
      subst hq
      simp [zmq_pub_send_json, if_pos hlt]

/-- Claim C6:: `zmq_pub_init` aborts exactly when context creation, socket
creation, or bind fails; it never connects; and on full success it
creates the context and one PUB socket, sets SNDHWM=2000, LINGER=0 and
SNDTIMEO=0 in that order before the bind, binds to the endpoint, and
stores both handles in the globals. -/
theorem C6_init_configures_and_binds (env : ZmqEnv) (endpoint : String)
    (g : ZmqGlobals) :
    ((zmq_pub_init env endpoint g).2.2 = true ↔
      (env.ctxNewResult = none ∨ env.socketResult = none ∨ env.bindResult ≠ 0)) ∧
    ((zmq_pub_init env endpoint g).2.1.all (fun a => !isConnectA a) = true) ∧
    (∀ c p, env.ctxNewResult = some c → env.socketResult = some p →
      env.bindResult = 0 →
      zmq_pub_init env endpoint g =
        ({ g_zmq_ctx := some c, g_zmq_pub := some p },
         [ZAction.ctxNew, ZAction.socketNew c ZMQ_PUB,
          ZAction.setsockopt p ZMQ_SNDHWM 2000,
          ZAction.setsockopt p ZMQ_LINGER 0,
          ZAction.setsockopt p ZMQ_SNDTIMEO 0,
          ZAction.bindSock p endpoint], false)) := by
  rcases env with ⟨c, p, b⟩
  cases c with
  | none =>
    refine ⟨by simp [zmq_pub_init], by simp [zmq_pub_init, isConnectA], ?_⟩
    intro c' p' hc hp hb
    exact absurd hc (by simp)
  | some cv =>
    cases p with
    | none =>
      refine ⟨by simp [zmq_pub_init], by simp [zmq_pub_init, isConnectA], ?_⟩
      intro c' p' hc hp hb
      exact absurd hp (by simp)
    | some pv =>
      by_cases hb : b = 0
      · subst hb
        refine ⟨by simp [zmq_pub_init], by simp [zmq_pub_init, isConnectA], ?_⟩
        intro c' p' hc hp hb2
        have h1 : cv = c' := by simpa using hc
        have h2 : pv = p' := by simpa using hp
        subst h1
        subst h2
        simp [zmq_pub_init]
      · refine ⟨by simp [zmq_pub_init, hb],
                by simp [zmq_pub_init, hb, isConnectA], ?_⟩
        intro c' p' hc hp hb2
        exact absurd hb2 hb

/-- Claim C9:: a first `zmq_pub_close` leaves both handles null, and a
second close on the result performs no external call and changes
nothing: close after close equals a single close. -/
theorem C9_close_twice_safe (g : ZmqGlobals) :
    (zmq_pub_close g).1 = { g_zmq_ctx := none, g_zmq_pub := none } ∧
    zmq_pub_close (zmq_pub_close g).1 =
      ({ g_zmq_ctx := none, g_zmq_pub := none }, []) := by
  refine ⟨zmq_pub_close_clears g, ?_⟩
  rw [zmq_pub_close_clears g]
  simp [zmq_pub_close]

/-- Claim C10:: publishing with a null socket handle — before `init`, or on
the globals any `zmq_pub_close` leaves behind — performs no send and no
abort: it returns immediately as a silent no-op. -/
theorem C10_publish_without_socket_noop (env : SendEnv) (cx : Option Nat)
    (topic json : String) (len : Nat) (g : ZmqGlobals) :
    zmq_pub_send_json env { g_zmq_ctx := cx, g_zmq_pub := none } topic json len
      = [] ∧
    zmq_pub_send_json env (zmq_pub_close g).1 topic json len = [] := by
  rw [zmq_pub_close_clears g]
  exact ⟨rfl, rfl⟩

/-- Witness for C5 at a concrete input: a live socket (handle 2) whose
outbound buffer is full drops the message after the single failing topic
send. -/
theorem C5_publish_nonblocking_atomic_witness :
    zmq_pub_send_json sendEnvFull gReady "fec" "x" 1 =
      [ZAction.send 2 "fec" "fec".length (ZMQ_SNDMORE ||| ZMQ_DONTWAIT)] :=
  (C5_publish_nonblocking_atomic sendEnvFull gReady "fec" "x" 1).2.2 2 rfl
    (by decide)

/-- Witness for C6 at a concrete input: with context handle 1, socket
handle 2 and a successful bind, init performs exactly the configure-then-
bind sequence and does not abort. -/
theorem C6_init_configures_and_binds_witness :
    zmq_pub_init zenvOK "ipc:///tmp/srs_scs_pub.ipc"
        { g_zmq_ctx := none, g_zmq_pub := none } =
      ({ g_zmq_ctx := some 1, g_zmq_pub := some 2 },
       [ZAction.ctxNew, ZAction.socketNew 1 ZMQ_PUB,
        ZAction.setsockopt 2 ZMQ_SNDHWM 2000,
        ZAction.setsockopt 2 ZMQ_LINGER 0,
        ZAction.setsockopt 2 ZMQ_SNDTIMEO 0,
        ZAction.bindSock 2 "ipc:///tmp/srs_scs_pub.ipc"], false) :=
  (C6_init_configures_and_binds zenvOK "ipc:///tmp/srs_scs_pub.ipc"
    { g_zmq_ctx := none, g_zmq_pub := none }).2.2 1 2 rfl rfl rfl

/-! ## Theorems for the Bring-Up Controller claims -/

namespace Dpdk

/-- The whole trace up to and including the port start satisfies
`notShutdownA`: it contains no run loop, no EAL cleanup, no device
close and no pool free. -/
theorem preStart_all_notShutdown (env : DpdkEnv) (mp : Nat) :
    ((setupTrace env mp ++ mtuBlock env ++ fecBlock env
        ++ [Action.devStart 0]).all notShutdownA) = true := by
  simp only [List.all_append, Bool.and_eq_true]
  refine ⟨⟨⟨?_, ?_⟩, ?_⟩, ?_⟩
  · exact setupTrace_all env mp notShutdownA rfl rfl rfl rfl rfl rfl rfl rfl
  · exact mtuBlock_all env notShutdownA rfl (fun s => rfl)
  · exact fecBlock_all env notShutdownA rfl (fun s => rfl) rfl (fun s => rfl)
  · rfl

/-- Claim C1: counterexample: with receive-queue setup failing (code `-5`)
after the buffer pool was successfully created, the program panics with
the step name and code, but releases nothing: the trace contains the
pool creation and no pool free and no device close.  This refutes the
claim that every fatal bring-up failure releases the resources acquired
so far. -/
theorem C1_counterexample :
    (main envRxFail).2 = Outcome.panicked "rx queue setup failed: -5" ∧
    Action.poolCreate "MBUF_POOL" 8192 256 0 16384 ∈ (main envRxFail).1 ∧
    ((main envRxFail).1.all fun a => !isPoolFreeA a) = true ∧
    ((main envRxFail).1.all fun a => !isDevCloseA a) = true := by
  decide

/-- Claim C1: (amended): on the first fatal failure — EAL init, port
discovery, pool creation, device configuration, either queue setup, or
port start — the program aborts via `rte_panic` with a message carrying
the failing step name and the numeric code, and never reaches the run
loop or the EAL cleanup (no intermediate running state); acquired
resources are not explicitly released, teardown being left to process
termination. -/
theorem C1_fatal_failure_panics (env : DpdkEnv) (msg : String)
    (h : firstFatal env = some msg) :
    (main env).2 = Outcome.panicked msg ∧
    Action.runLoop ∉ (main env).1 ∧ Action.ealCleanup ∉ (main env).1 := by
  unfold firstFatal at h
  by_cases h1 : env.ealInitResult < 0
  · rw [if_pos h1] at h
    injection h with h'
    subst h'
    refine ⟨by simp [main, h1], by simp [main, h1], by simp [main, h1]⟩
  rw [if_neg h1] at h
  by_cases h2 : env.availPorts = 0
  · rw [if_pos h2] at h
    injection h with h'
    subst h'
    refine ⟨by simp [main, h1, h2], by simp [main, h1, h2],
            by simp [main, h1, h2]⟩
  rw [if_neg h2] at h
  by_cases h3 : env.poolCreate = none
  · rw [if_pos h3] at h
    injection h with h'
    subst h'
    cases hv : env.validPort <;>
      refine ⟨by simp [main, h1, h2, h3, hv], by simp [main, h1, h2, h3, hv],
              by simp [main, h1, h2, h3, hv]⟩
  rw [if_neg h3] at h
  obtain ⟨mp, hmp⟩ := Option.ne_none_iff_exists'.mp h3
  by_cases h4 : env.configureResult < 0
  · rw [if_pos h4] at h
    injection h with h'
    subst h'
    cases hv : env.validPort <;>
      refine ⟨by simp [main, h1, h2, hmp, h4, hv],
              by simp [main, h1, h2, hmp, h4, hv],
              by simp [main, h1, h2, hmp, h4, hv]⟩
  rw [if_neg h4] at h
  by_cases h5 : env.rxSetupResult < 0
  · rw [if_pos h5] at h
    injection h with h'
    subst h'
    cases hv : env.validPort <;>
      refine ⟨by simp [main, h1, h2, hmp, h4, h5, hv],
              by simp [main, h1, h2, hmp, h4, h5, hv],
              by simp [main, h1, h2, hmp, h4, h5, hv]⟩
  rw [if_neg h5] at h
  by_cases h6 : env.txSetupResult < 0
  · rw [if_pos h6] at h
    injection h with h'
    subst h'
    cases hv : env.validPort <;>
      refine ⟨by simp [main, h1, h2, hmp, h4, h5, h6, hv],
              by simp [main, h1, h2, hmp, h4, h5, h6, hv],
              by simp [main, h1, h2, hmp, h4, h5, h6, hv]⟩
  rw [if_neg h6] at h
  by_cases h7 : env.startResult < 0
  swap
  · rw [if_neg h7] at h
    exact Option.noConfusion h
  rw [if_pos h7] at h
  injection h with h'
  subst h'
  rw [main_ok_decomp env mp h1 h2 hmp h4 h5 h6]
  have htail : tailTrace env = [Action.panic (startFailMsg env)] := by
    simp [tailTrace, h7]
  have hpre := preStart_all_notShutdown env mp
  refine ⟨by simp [h7], ?_, ?_⟩
  · intro hmem
    rcases List.mem_append.mp hmem with hm | hm
    · have hx := List.all_eq_true.mp hpre _ hm
      simp [notShutdownA] at hx
    · rw [htail] at hm
      simp at hm
  · intro hmem
    rcases List.mem_append.mp hmem with hm | hm
    · have hx := List.all_eq_true.mp hpre _ hm
      simp [notShutdownA] at hx
    · rw [htail] at hm
      simp at hm

end Dpdk

namespace Dpdk

/-- Witness for C1 at a concrete input: when `rte_pktmbuf_pool_create`
returns NULL, the program panics with the pool-creation step message and
never reaches the run loop or the cleanup. -/
theorem C1_fatal_failure_panics_witness :
    (main envPoolFail).2 = Outcome.panicked "mbuf pool create failed" ∧
    Action.runLoop ∉ (main envPoolFail).1 ∧
    Action.ealCleanup ∉ (main envPoolFail).1 :=
  C1_fatal_failure_panics envPoolFail "mbuf pool create failed" (by decide)

/-- Claim C2:: once the fatal steps through queue setup have succeeded,
bring-up always proceeds to the port start, whatever the results of the
explicit MTU application and of the FEC set; when either of those two
calls fails, its warning diagnostic is recorded and the sequence
continues. -/
theorem C2_mtu_fec_failures_tolerated (env : DpdkEnv) (mp : Nat)
    (h1 : ¬ env.ealInitResult < 0) (h2 : ¬ env.availPorts = 0)
    (h3 : env.poolCreate = some mp) (h4 : ¬ env.configureResult < 0)
    (h5 : ¬ env.rxSetupResult < 0) (h6 : ¬ env.txSetupResult < 0) :
    Action.devStart 0 ∈ (main env).1 ∧
    (env.setMtuResult < 0 → Action.warn (mtuWarnMsg env) ∈ (main env).1) ∧
    (env.fecSetResult < 0 → Action.warn (fecWarnMsg env) ∈ (main env).1) := by
  rw [main_ok_decomp env mp h1 h2 h3 h4 h5 h6]
  refine ⟨?_, ?_, ?_⟩
  · simp [List.mem_append]
  · intro hm
    have hx : Action.warn (mtuWarnMsg env) ∈ mtuBlock env := by
      simp [mtuBlock, if_pos hm]
    simp [List.mem_append, hx]
  · intro hf
    have hx : Action.warn (fecWarnMsg env) ∈ fecBlock env := by
      simp [fecBlock, if_pos hf]
    simp [List.mem_append, hx]

/-- Witness for C2 at a concrete input: with MTU application failing
(`-1`) and FEC set failing (`-95`), the port start still happens and
both warnings are in the trace. -/
theorem C2_mtu_fec_failures_tolerated_witness :
    Action.devStart 0 ∈ (main envTolerated).1 ∧
    Action.warn (mtuWarnMsg envTolerated) ∈ (main envTolerated).1 ∧
    Action.warn (fecWarnMsg envTolerated) ∈ (main envTolerated).1 := by
  have h := C2_mtu_fec_failures_tolerated envTolerated 7 (by decide) (by decide)
    rfl (by decide) (by decide) (by decide)
  exact ⟨h.1, h.2.1 (by decide), h.2.2 (by decide)⟩

/-- Claim C3:: once the fatal steps through queue setup have succeeded, the
trace splits around a single FEC-set attempt followed — still before the
port start — by a FEC re-read and its report; no other part of the
trace (before the attempt, between attempt and start, or after the
start) contains a FEC set, so FEC is never set after the start, and the
re-read happens whether or not the attempt failed. -/
theorem C3_fec_set_before_start (env : DpdkEnv) (mp : Nat)
    (h1 : ¬ env.ealInitResult < 0) (h2 : ¬ env.availPorts = 0)
    (h3 : env.poolCreate = some mp) (h4 : ¬ env.configureResult < 0)
    (h5 : ¬ env.rxSetupResult < 0) (h6 : ¬ env.txSetupResult < 0) :
    ∃ mid,
      (main env).1 =
        (setupTrace env mp ++ mtuBlock env)
          ++ [Action.fecSet 0 RTE_ETH_FEC_NOFEC] ++ mid
          ++ [Action.fecGet 0, Action.report (print_fec_msg env "after set")]
          ++ [Action.devStart 0] ++ tailTrace env ∧
      ((setupTrace env mp ++ mtuBlock env).all notFecOrStartA) = true ∧
      (mid.all notFecOrStartA) = true ∧
      ((tailTrace env).all fun a => !isFecSetA a) = true := by
  refine ⟨if env.fecSetResult < 0 then [Action.warn (fecWarnMsg env)] else [],
          ?_, ?_, ?_, ?_⟩
  · rw [main_ok_decomp env mp h1 h2 h3 h4 h5 h6]
    simp [fecBlock, print_fec, List.append_assoc]
  · simp only [List.all_append, Bool.and_eq_true]
    exact ⟨setupTrace_all env mp notFecOrStartA rfl rfl rfl rfl rfl rfl rfl rfl,
           mtuBlock_all env notFecOrStartA rfl (fun s => rfl)⟩
  · split <;> rfl
  · exact tailTrace_all env (fun a => !isFecSetA a) (fun s => rfl) rfl
      (fun st sp d => rfl) rfl (fun s => rfl) rfl rfl rfl rfl

/-- Witness for C3 at the all-success environment. -/
theorem C3_fec_set_before_start_witness :
    ∃ mid,
      (main envOK).1 =
        (setupTrace envOK 7 ++ mtuBlock envOK)
          ++ [Action.fecSet 0 RTE_ETH_FEC_NOFEC] ++ mid
          ++ [Action.fecGet 0, Action.report (print_fec_msg envOK "after set")]
          ++ [Action.devStart 0] ++ tailTrace envOK ∧
      ((setupTrace envOK 7 ++ mtuBlock envOK).all notFecOrStartA) = true ∧
      (mid.all notFecOrStartA) = true ∧
      ((tailTrace envOK).all fun a => !isFecSetA a) = true :=
  C3_fec_set_before_start envOK 7 (by decide) (by decide) rfl (by decide)
    (by decide) (by decide)

/-- Claim C4:: once the fatal steps through queue setup have succeeded, the
pool creation precedes every queue setup (nothing before it is a queue
setup), every receive-queue setup in the trace binds the created pool
`mp`, and no transmit-queue setup passes a pool. -/
theorem C4_pool_before_queues (env : DpdkEnv) (mp : Nat)
    (h1 : ¬ env.ealInitResult < 0) (h2 : ¬ env.availPorts = 0)
    (h3 : env.poolCreate = some mp) (h4 : ¬ env.configureResult < 0)
    (h5 : ¬ env.rxSetupResult < 0) (h6 : ¬ env.txSetupResult < 0) :
    ∃ B,
      (main env).1 =
        ([Action.ealInit, Action.countAvail]
            ++ (if env.validPort then [Action.devStop 0] else [])
            ++ [Action.devInfoGet 0])
          ++ [Action.poolCreate "MBUF_POOL" 8192 256 0 16384] ++ B ∧
      (([Action.ealInit, Action.countAvail]
            ++ (if env.validPort then [Action.devStop 0] else [])
            ++ [Action.devInfoGet 0]).all fun a => !isQueueSetupA a) = true ∧
      ((main env).1.all (rxBoundTo mp)) = true ∧
      ((main env).1.all txNoPool) = true := by
  refine ⟨[Action.devConfigure 0 1 1 9200
             (RTE_ETH_LINK_SPEED_10G ||| RTE_ETH_LINK_SPEED_FIXED),
           Action.queueSetup QDir.rx 0 0 1024 (some mp),
           Action.queueSetup QDir.tx 0 0 1024 none]
            ++ mtuBlock env ++ fecBlock env ++ [Action.devStart 0]
            ++ tailTrace env, ?_, ?_, ?_, ?_⟩
  · rw [main_ok_decomp env mp h1 h2 h3 h4 h5 h6]
    simp [setupTrace, List.append_assoc]
  · split <;> rfl
  · rw [main_ok_decomp env mp h1 h2 h3 h4 h5 h6]
    simp only [List.all_append, Bool.and_eq_true]
    refine ⟨⟨⟨⟨?_, ?_⟩, ?_⟩, ?_⟩, ?_⟩
    · exact setupTrace_all env mp (rxBoundTo mp) rfl rfl rfl rfl rfl rfl
        (by simp [rxBoundTo]) rfl
    · exact mtuBlock_all env (rxBoundTo mp) rfl (fun s => rfl)
    · exact fecBlock_all env (rxBoundTo mp) rfl (fun s => rfl) rfl
        (fun s => rfl)
    · rfl
    · exact tailTrace_all env (rxBoundTo mp) (fun s => rfl) rfl
        (fun st sp d => rfl) rfl (fun s => rfl) rfl rfl rfl rfl
  · rw [main_ok_decomp env mp h1 h2 h3 h4 h5 h6]
    simp only [List.all_append, Bool.and_eq_true]
    refine ⟨⟨⟨⟨?_, ?_⟩, ?_⟩, ?_⟩, ?_⟩
    · exact setupTrace_all env mp txNoPool rfl rfl rfl rfl rfl rfl rfl rfl
    · exact mtuBlock_all env txNoPool rfl (fun s => rfl)
    · exact fecBlock_all env txNoPool rfl (fun s => rfl) rfl (fun s => rfl)
    · rfl
    · exact tailTrace_all env txNoPool (fun s => rfl) rfl
        (fun st sp d => rfl) rfl (fun s => rfl) rfl rfl rfl rfl

/-- Witness for C4 at the all-success environment. -/
theorem C4_pool_before_queues_witness :
    ∃ B,
      (main envOK).1 =
        ([Action.ealInit, Action.countAvail]
            ++ (if envOK.validPort then [Action.devStop 0] else [])
            ++ [Action.devInfoGet 0])
          ++ [Action.poolCreate "MBUF_POOL" 8192 256 0 16384] ++ B ∧
      (([Action.ealInit, Action.countAvail]
            ++ (if envOK.validPort then [Action.devStop 0] else [])
            ++ [Action.devInfoGet 0]).all fun a => !isQueueSetupA a) = true ∧
      ((main envOK).1.all (rxBoundTo 7)) = true ∧
      ((main envOK).1.all txNoPool) = true :=
  C4_pool_before_queues envOK 7 (by decide) (by decide) rfl (by decide)
    (by decide) (by decide)

end Dpdk

namespace Dpdk

/-- Every link report in the tail of the trace prints "UP" or "DOWN". -/
theorem tailTrace_linkUpDown (env : DpdkEnv) :
    (tailTrace env).all linkStatusUpDown = true := by
  unfold tailTrace linkBlock
  split
  · rfl
  · cases h : env.link.link_status <;> simp [h, linkStatusUpDown]

/-- Claim C7: counterexample: with `rte_eth_link_get_nowait` failing
(`-1`) and the struct left holding zeroes, bring-up still exits
normally, but the link is reported as "DOWN" — no action in the trace
reports the status as "unknown".  This refutes the claim that an
unreadable link state is reported as "unknown". -/
theorem C7_counterexample :
    envLinkFail.linkGetResult < 0 ∧
    (main envLinkFail).2 = Outcome.exited 0 ∧
    Action.reportLink 0 "DOWN" 0 "half" ∈ (main envLinkFail).1 ∧
    ((main envLinkFail).1.all fun a => !reportsUnknown a) = true := by
  decide

/-- Claim C7: (amended): the link-status read after port start is
informational only — on the success path the program exits normally and
the whole of `main` is independent of the value
`rte_eth_link_get_nowait` returns; the struct contents are reported as
"UP" or "DOWN" (never as "unknown", even when the read failed). -/
theorem C7_link_read_informational (env : DpdkEnv) (mp : Nat)
    (h1 : ¬ env.ealInitResult < 0) (h2 : ¬ env.availPorts = 0)
    (h3 : env.poolCreate = some mp) (h4 : ¬ env.configureResult < 0)
    (h5 : ¬ env.rxSetupResult < 0) (h6 : ¬ env.txSetupResult < 0)
    (h7 : ¬ env.startResult < 0) :
    (main env).2 = Outcome.exited 0 ∧
    (∀ r : Int, main { env with linkGetResult := r } = main env) ∧
    Action.reportLink 0 (if env.link.link_status then "UP" else "DOWN")
        env.link.link_speed
        (if env.link.link_duplex = RTE_ETH_LINK_FULL_DUPLEX then "full"
         else "half")
      ∈ (main env).1 ∧
    ((main env).1.all linkStatusUpDown) = true := by
  refine ⟨?_, ?_, ?_, ?_⟩
  · rw [main_ok_decomp env mp h1 h2 h3 h4 h5 h6]
    simp [h7]
  · intro r
    simp [main, setupTrace, mtuBlock, fecBlock, print_fec, print_fec_msg,
      fecModesStr, tailTrace, linkBlock, mtuWarnMsg, fecWarnMsg, cfgFailMsg,
      rxFailMsg, txFailMsg, startFailMsg]
  · rw [main_ok_decomp env mp h1 h2 h3 h4 h5 h6]
    have hx : Action.reportLink 0
        (if env.link.link_status then "UP" else "DOWN") env.link.link_speed
        (if env.link.link_duplex = RTE_ETH_LINK_FULL_DUPLEX then "full"
         else "half") ∈ tailTrace env := by
      simp [tailTrace, h7, linkBlock]
    simp [List.mem_append, hx]
  · rw [main_ok_decomp env mp h1 h2 h3 h4 h5 h6]
    simp only [List.all_append, Bool.and_eq_true]
    refine ⟨⟨⟨⟨?_, ?_⟩, ?_⟩, ?_⟩, ?_⟩
    · exact setupTrace_all env mp linkStatusUpDown rfl rfl rfl rfl rfl rfl
        rfl rfl
    · exact mtuBlock_all env linkStatusUpDown rfl (fun s => rfl)
    · exact fecBlock_all env linkStatusUpDown rfl (fun s => rfl) rfl
        (fun s => rfl)
    · rfl
    · exact tailTrace_linkUpDown env

/-- Witness for C7 at a concrete input: the all-success environment
exits normally with the link reported "UP". -/
theorem C7_link_read_informational_witness :
    (main envOK).2 = Outcome.exited 0 ∧
    Action.reportLink 0 (if envOK.link.link_status then "UP" else "DOWN")
        envOK.link.link_speed
        (if envOK.link.link_duplex = RTE_ETH_LINK_FULL_DUPLEX then "full"
         else "half")
      ∈ (main envOK).1 := by
  have h := C7_link_read_informational envOK 7 (by decide) (by decide) rfl
    (by decide) (by decide) (by decide) (by decide)
  exact ⟨h.1, h.2.2.1⟩

/-- Claim C8:: the SIGINT handler only clears the run flag — for any prior
state it returns the flag set to 0 and performs no action; the run loop
with a cleared flag exits without performing anything; and on the
success path the shutdown work (`rte_eth_dev_stop`,
`rte_eth_dev_close`, `rte_eal_cleanup`) forms exactly the trace segment
after the run loop, with no device close or EAL cleanup anywhere
before. -/
theorem C8_signal_handler_only_requests_exit (env : DpdkEnv) (mp : Nat)
    (h1 : ¬ env.ealInitResult < 0) (h2 : ¬ env.availPorts = 0)
    (h3 : env.poolCreate = some mp) (h4 : ¬ env.configureResult < 0)
    (h5 : ¬ env.rxSetupResult < 0) (h6 : ¬ env.txSetupResult < 0)
    (h7 : ¬ env.startResult < 0) (sig : Int) (s : GlobalState) (n : Nat) :
    handle_sigint sig s = ({ keep_running := 0 }, []) ∧
    runLoopModel n { keep_running := 0 } = ({ keep_running := 0 }, []) ∧
    ∃ pre,
      (main env).1 = pre ++ [Action.runLoop, Action.devStop 0,
        Action.devClose 0, Action.ealCleanup] ∧
      (pre.all fun a =>
        (!(a == Action.devClose 0)) && (!(a == Action.ealCleanup))) = true := by
  refine ⟨?_, ?_, ?_⟩
  · cases s
    rfl
  · cases n <;> simp [runLoopModel]
  · refine ⟨setupTrace env mp ++ mtuBlock env ++ fecBlock env
      ++ [Action.devStart 0] ++ linkBlock env
      ++ [Action.sigInstall, Action.report "Running... (Ctrl-C to stop)"],
      ?_, ?_⟩
    · rw [main_ok_decomp env mp h1 h2 h3 h4 h5 h6]
      simp [tailTrace, h7, linkBlock, List.append_assoc]
    · simp only [List.all_append, Bool.and_eq_true]
      refine ⟨⟨⟨⟨⟨?_, ?_⟩, ?_⟩, ?_⟩, ?_⟩, ?_⟩
      · exact setupTrace_all env mp
          (fun a => (!(a == Action.devClose 0)) && (!(a == Action.ealCleanup)))
          rfl rfl rfl rfl rfl rfl rfl rfl
      · exact mtuBlock_all env
          (fun a => (!(a == Action.devClose 0)) && (!(a == Action.ealCleanup)))
          rfl (fun x => rfl)
      · exact fecBlock_all env
          (fun a => (!(a == Action.devClose 0)) && (!(a == Action.ealCleanup)))
          rfl (fun x => rfl) rfl (fun x => rfl)
      · rfl
      · rfl
      · rfl

/-- Witness for C8 at a concrete input: all-success environment, signal
2 (SIGINT), prior flag 1, three loop iterations available. -/
theorem C8_signal_handler_only_requests_exit_witness :
    handle_sigint 2 { keep_running := 1 } = ({ keep_running := 0 }, []) ∧
    runLoopModel 3 { keep_running := 0 } = ({ keep_running := 0 }, []) ∧
    ∃ pre,
      (main envOK).1 = pre ++ [Action.runLoop, Action.devStop 0,
        Action.devClose 0, Action.ealCleanup] ∧
      (pre.all fun a =>
        (!(a == Action.devClose 0)) && (!(a == Action.ealCleanup))) = true :=
  C8_signal_handler_only_requests_exit envOK 7 (by decide) (by decide) rfl
    (by decide) (by decide) (by decide) (by decide) 2 { keep_running := 1 } 3

end Dpdk
